import Mathlib

/-!
Verification development for the NCRN discrete water-quality ETL pipeline
(`src/transform.py`, `src/utils.py`).  Pandas dataframes are embedded
shallowly: a dataframe row becomes a structure whose nullable columns are
`Option`-typed, `np.where(mask, a, b)` becomes an `if mask then a else b`
per row, pandas string concatenation (which returns null when any operand
is null) becomes `pyCat`, and a Python `assert` becomes an
`Except String` result at the table level.  Dates compared with
`pd.to_datetime` are embedded as integers (any linearly ordered embedding
of timestamps suffices for the window logic), and numeric results as `ℚ`.
-/

namespace NCRNWater

set_option maxRecDepth 40000

/-- Pandas string concatenation: any null operand makes the result null. -/
def pyCat : Option String → Option String → Option String
  | some a, some b => some (a ++ b)
  | _, _ => none

/-- A string literal used as a pandas scalar operand. -/
def pyLit (s : String) : Option String := some s

/-! ## `transform._assign_activity_id`

One row of the flattened result table, restricted to the columns that
`_assign_activity_id` reads.  All of them are nullable in the dataframe.
-/

structure WRow where
  grouping_var : Option String
  activity_group_id : Option String
  discharge_instrument : Option String
  sampleability : Option String
  ysi_probe : Option String
  ysi_increment : Option String
  lab : Option String
  deriving Repr, DecidableEq

/-- Mask of the flow-quantity refinement:
`(df['grouping_var']=='NCRN_WQ_WQUANTITY') & (df['discharge_instrument'].isna()==False)`. -/
def wquantityMask (r : WRow) : Prop :=
  r.grouping_var = some "NCRN_WQ_WQUANTITY" ∧ r.discharge_instrument ≠ none

/-- Mask of the water-quality (ysi) refinement:
`(df['grouping_var']=='NCRN_WQ_WQUALITY') & (df['sampleability']=='Actively Sampled') & (df['ysi_probe'].isna()==False) & (df['ysi_increment'].isna()==False)`. -/
def wqualityMask (r : WRow) : Prop :=
  r.grouping_var = some "NCRN_WQ_WQUALITY" ∧ r.sampleability = some "Actively Sampled" ∧
    r.ysi_probe ≠ none ∧ r.ysi_increment ≠ none

/-- Mask of the lab-chemistry refinement:
`(df['grouping_var']=='NCRN_WQ_WCHEM') & (df['sampleability']=='Actively Sampled') & (df['lab'].isna()==False)`. -/
def wchemMask (r : WRow) : Prop :=
  r.grouping_var = some "NCRN_WQ_WCHEM" ∧ r.sampleability = some "Actively Sampled" ∧
    r.lab ≠ none

instance (r : WRow) : Decidable (wquantityMask r) := by unfold wquantityMask; infer_instance
instance (r : WRow) : Decidable (wqualityMask r) := by unfold wqualityMask; infer_instance
instance (r : WRow) : Decidable (wchemMask r) := by unfold wchemMask; infer_instance

/-- Row-level activity-id computation of `transform._assign_activity_id`:
the base-case assignment followed by the four `np.where` refinements.  The
source applies the refinements in order, each overwriting the previous
value where its mask holds; inlining that chain gives nested conditionals
tested in reverse source order (last write wins).  The `NCRN_WQ_HABINV`
branch recomputes exactly the base-case expression, as in the source. -/
def assignActivityIdRow (r : WRow) : Option String :=
  if wchemMask r then
    pyCat (pyCat (pyCat (pyCat r.activity_group_id (pyLit "|")) r.grouping_var) (pyLit "|"))
      r.lab
  else if wqualityMask r then
    pyCat (pyCat (pyCat (pyCat (pyCat (pyCat r.activity_group_id (pyLit "|")) r.grouping_var)
      (pyLit "|")) r.ysi_probe) (pyLit "|")) r.ysi_increment
  else if wquantityMask r then
    pyCat (pyCat (pyCat (pyCat r.activity_group_id (pyLit "|")) r.grouping_var) (pyLit "|"))
      r.discharge_instrument
  else if r.grouping_var = some "NCRN_WQ_HABINV" then
    pyCat (pyCat r.activity_group_id (pyLit "|")) r.grouping_var
  else
    pyCat (pyCat r.activity_group_id (pyLit "|")) r.grouping_var

/-- The hard-coded `LOOKUP` list of known grouping categories. -/
def LOOKUP : List String :=
  ["NCRN_WQ_HABINV", "NCRN_WQ_WQUANTITY", "NCRN_WQ_WQUALITY", "NCRN_WQ_WCHEM"]

/-- Table-level `transform._assign_activity_id`: the four precondition
asserts, the assignment, and the postcondition assert, in source order.
A failed Python `assert` is an `Except.error`. -/
def assignActivityId (rows : List WRow) : Except String (List (WRow × Option String)) :=
  if rows.any (fun r => r.grouping_var.isNone) then
    .error "rows in the dataframe have not been assigned a grouping_var"
  else if rows.any (fun r => r.activity_group_id.isNone) then
    .error "rows in the dataframe have not been assigned a activity_group_id"
  else if rows.any (fun r => !(LOOKUP.any (fun c => r.grouping_var == some c))) then
    .error "grouping_var values are present in the dataframe but absent from LOOKUP"
  else if LOOKUP.any (fun c => !(rows.any (fun r => r.grouping_var == some c))) then
    .error "grouping_var values are present in LOOKUP but absent from the dataframe"
  else if (rows.map (fun r => (r, assignActivityIdRow r))).any (fun p => p.2.isNone) then
    .error "activity_id failed to assign"
  else
    .ok (rows.map (fun r => (r, assignActivityIdRow r)))

/-- C1: for every row, the assigned activity id equals
`activity_group_id + "|" + grouping category` in the base case; a
flow-quantity row with a non-null discharge instrument instead gets
`base + "|" + discharge_instrument`; a water-quality row with
sampleability `Actively Sampled` and non-null probe and increment gets
`base + "|" + probe + "|" + increment`; a lab-chemistry row with
sampleability `Actively Sampled` and a non-null lab gets
`base + "|" + lab`; site-observation rows keep the base case. -/
theorem activity_id_assignment_cases (r : WRow) (a : String)
    (ha : r.activity_group_id = some a) :
    (∀ g, r.grouping_var = some g → ¬wquantityMask r → ¬wqualityMask r → ¬wchemMask r →
      assignActivityIdRow r = some (a ++ "|" ++ g)) ∧
    (∀ d, r.grouping_var = some "NCRN_WQ_WQUANTITY" → r.discharge_instrument = some d →
      assignActivityIdRow r = some (a ++ "|" ++ "NCRN_WQ_WQUANTITY" ++ "|" ++ d)) ∧
    (∀ p i, r.grouping_var = some "NCRN_WQ_WQUALITY" → r.sampleability = some "Actively Sampled" →
      r.ysi_probe = some p → r.ysi_increment = some i →
      assignActivityIdRow r = some (a ++ "|" ++ "NCRN_WQ_WQUALITY" ++ "|" ++ p ++ "|" ++ i)) ∧
    (∀ l, r.grouping_var = some "NCRN_WQ_WCHEM" → r.sampleability = some "Actively Sampled" →
      r.lab = some l →
      assignActivityIdRow r = some (a ++ "|" ++ "NCRN_WQ_WCHEM" ++ "|" ++ l)) ∧
    (r.grouping_var = some "NCRN_WQ_HABINV" →
      assignActivityIdRow r = some (a ++ "|" ++ "NCRN_WQ_HABINV")) := by
  refine ⟨?_, ?_, ?_, ?_, ?_⟩
  · intro g hg hq hy hc
    unfold assignActivityIdRow
    rw [if_neg hc, if_neg hy, if_neg hq]
    by_cases hh : r.grouping_var = some "NCRN_WQ_HABINV"
    · have hgh : g = "NCRN_WQ_HABINV" := by rw [hg] at hh; simpa using hh
      subst hgh
      simp [hh, hg, ha, pyCat, pyLit, String.append_assoc]
    · simp [hh, hg, ha, pyCat, pyLit, String.append_assoc]
  · intro d hg hd
    unfold assignActivityIdRow
    rw [if_neg (by simp [wchemMask, hg]), if_neg (by simp [wqualityMask, hg]),
      if_pos (show wquantityMask r from ⟨hg, by simp [hd]⟩)]
    simp [hg, ha, hd, pyCat, pyLit, String.append_assoc]
  · intro p i hg hs hp hi
    unfold assignActivityIdRow
    rw [if_neg (by simp [wchemMask, hg]),
      if_pos (show wqualityMask r from ⟨hg, hs, by simp [hp], by simp [hi]⟩)]
    simp [hg, ha, hp, hi, pyCat, pyLit, String.append_assoc]
  · intro l hg hs hl
    unfold assignActivityIdRow
    rw [if_pos (show wchemMask r from ⟨hg, hs, by simp [hl]⟩)]
    simp [hg, ha, hl, pyCat, pyLit, String.append_assoc]
  · intro hg
    unfold assignActivityIdRow
    rw [if_neg (by simp [wchemMask, hg]), if_neg (by simp [wqualityMask, hg]),
      if_neg (by simp [wquantityMask, hg]), if_pos hg]
    simp [hg, ha, pyCat, pyLit, String.append_assoc]

/-- Witness for C1: a concrete lab-chemistry row receives the
lab-refined activity id. -/
theorem activity_id_assignment_cases_witness :
    assignActivityIdRow
      { grouping_var := some "NCRN_WQ_WCHEM", activity_group_id := some "AG1",
        discharge_instrument := none, sampleability := some "Actively Sampled",
        ysi_probe := none, ysi_increment := none, lab := some "AL" } =
      some ("AG1" ++ "|" ++ "NCRN_WQ_WCHEM" ++ "|" ++ "AL") :=
  (activity_id_assignment_cases _ "AG1" rfl).2.2.2.1 "AL" rfl rfl rfl

/-- C2: assuming every input row has a non-null grouping category among
the four known categories and a non-null activity-group identifier, the
row-level assignment never yields a null id, the table-level function
raises whenever any row's assigned id is null, and on a non-raising
run every row of the returned table carries a non-null `activity_id`. -/
theorem activity_id_totality (rows : List WRow)
    (h1 : ∀ r ∈ rows, (LOOKUP.any (fun c => r.grouping_var == some c)) = true)
    (h2 : ∀ r ∈ rows, r.activity_group_id ≠ none) :
    (∀ r ∈ rows, (assignActivityIdRow r).isSome) ∧
    ((∃ r ∈ rows, assignActivityIdRow r = none) → ∃ e, assignActivityId rows = .error e) ∧
    (∀ out, assignActivityId rows = .ok out → ∀ p ∈ out, p.2.isSome) := by
  refine ⟨?_, ?_, ?_⟩
  · intro r hr
    obtain ⟨g, hgL, hg⟩ := List.any_eq_true.mp (h1 r hr)
    rw [beq_iff_eq] at hg
    obtain ⟨a, ha⟩ := Option.ne_none_iff_exists'.mp (h2 r hr)
    unfold assignActivityIdRow
    by_cases hc : wchemMask r
    · obtain ⟨hgv, hs, hlab⟩ := hc
      obtain ⟨l, hl⟩ := Option.ne_none_iff_exists'.mp hlab
      rw [if_pos (show wchemMask r from ⟨hgv, hs, hlab⟩)]
      simp [pyCat, pyLit, ha, hgv, hl]
    · rw [if_neg hc]
      by_cases hy : wqualityMask r
      · obtain ⟨hgv, hs, hp, hi⟩ := hy
        obtain ⟨p, hp'⟩ := Option.ne_none_iff_exists'.mp hp
        obtain ⟨i, hi'⟩ := Option.ne_none_iff_exists'.mp hi
        rw [if_pos ⟨hgv, hs, hp, hi⟩]
        simp [pyCat, pyLit, ha, hgv, hp', hi']
      · rw [if_neg hy]
        by_cases hq : wquantityMask r
        · obtain ⟨hgv, hd⟩ := hq
          obtain ⟨d, hd'⟩ := Option.ne_none_iff_exists'.mp hd
          rw [if_pos ⟨hgv, hd⟩]
          simp [pyCat, pyLit, ha, hgv, hd']
        · rw [if_neg hq]
          by_cases hh : r.grouping_var = some "NCRN_WQ_HABINV" <;>
            simp [hh, hg, ha, pyCat, pyLit]
  · rintro ⟨r, hr, hnone⟩
    unfold assignActivityId
    split_ifs with c1 c2 c3 c4 c5
    · exact ⟨_, rfl⟩
    · exact ⟨_, rfl⟩
    · exact ⟨_, rfl⟩
    · exact ⟨_, rfl⟩
    · exact ⟨_, rfl⟩
    · exfalso
      apply c5
      exact List.any_eq_true.mpr
        ⟨(r, assignActivityIdRow r), List.mem_map_of_mem _ hr, by simp [hnone]⟩
  · intro out hout
    unfold assignActivityId at hout
    split_ifs at hout with c1 c2 c3 c4 c5
    intro p hp
    injection hout with h
    subst h
    have hne : ¬p.2.isNone = true := fun hh => c5 (List.any_eq_true.mpr ⟨p, hp, hh⟩)
    simpa [Option.isSome_iff_ne_none, Option.isNone_iff_eq_none] using hne

/-- Witness for C2: a concrete table with one row of each category
passes all the asserts and every returned row carries a non-null id. -/
theorem activity_id_totality_witness :
    (assignActivityIdRow
      { grouping_var := some "NCRN_WQ_HABINV", activity_group_id := some "AG1",
        discharge_instrument := none, sampleability := none,
        ysi_probe := none, ysi_increment := none, lab := none }).isSome :=
  (activity_id_totality
    [{ grouping_var := some "NCRN_WQ_HABINV", activity_group_id := some "AG1",
       discharge_instrument := none, sampleability := none,
       ysi_probe := none, ysi_increment := none, lab := none }]
    (by decide) (by decide)).1 _ (by simp)

/-- C10: the table-level assignment raises not only when some row's
grouping category is outside the four known values, but also whenever
one of the four expected categories has no rows at all in the input. -/
theorem activity_id_requires_all_categories (rows : List WRow) :
    ((∃ r ∈ rows, ∃ g, r.grouping_var = some g ∧ g ∉ LOOKUP) →
      ∃ e, assignActivityId rows = .error e) ∧
    ((∃ c ∈ LOOKUP, ∀ r ∈ rows, r.grouping_var ≠ some c) →
      ∃ e, assignActivityId rows = .error e) := by
  constructor
  · rintro ⟨r, hr, g, hg, hgnot⟩
    unfold assignActivityId
    split_ifs with c1 c2 c3 c4 c5
    · exact ⟨_, rfl⟩
    · exact ⟨_, rfl⟩
    · exact ⟨_, rfl⟩
    · exact ⟨_, rfl⟩
    · exact ⟨_, rfl⟩
    · exfalso
      apply c3
      refine List.any_eq_true.mpr ⟨r, hr, ?_⟩
      simp only [Bool.not_eq_true', List.any_eq_false]
      intro c hc
      simp only [hg, beq_iff_eq, Option.some.injEq]
      exact fun h => hgnot (h ▸ hc)
  · rintro ⟨c, hcL, hall⟩
    unfold assignActivityId
    split_ifs with c1 c2 c3 c4 c5
    · exact ⟨_, rfl⟩
    · exact ⟨_, rfl⟩
    · exact ⟨_, rfl⟩
    · exact ⟨_, rfl⟩
    · exact ⟨_, rfl⟩
    · exfalso
      apply c4
      refine List.any_eq_true.mpr ⟨c, hcL, ?_⟩
      simp only [Bool.not_eq_true', List.any_eq_false]
      intro r hr
      simpa using hall r hr

/-- Witness for C10: a concrete table covering only three of the four
categories makes the assignment raise. -/
theorem activity_id_requires_all_categories_witness :
    ∃ e, assignActivityId
      [{ grouping_var := some "NCRN_WQ_HABINV", activity_group_id := some "AG1",
         discharge_instrument := none, sampleability := none,
         ysi_probe := none, ysi_increment := none, lab := none },
       { grouping_var := some "NCRN_WQ_WQUANTITY", activity_group_id := some "AG1",
         discharge_instrument := some "flowtracker", sampleability := none,
         ysi_probe := none, ysi_increment := none, lab := none },
       { grouping_var := some "NCRN_WQ_WQUALITY", activity_group_id := some "AG1",
         discharge_instrument := none, sampleability := some "Actively Sampled",
         ysi_probe := some "ysi_1", ysi_increment := some "1", lab := none }] = .error e :=
  (activity_id_requires_all_categories _).2 ⟨"NCRN_WQ_WCHEM", by decide, by decide⟩

/-! ## `transform._make_instrument_column`

One row of the flattened result table, restricted to the columns the
instrument-resolution pass reads and writes.  `activity_start_date` is a
timestamp embedded as an integer (only its linear order is used by the
source's `pd.to_datetime` comparisons). -/

structure IRow where
  Characteristic_Name : String
  activity_start_date : Int
  grouping_var : Option String
  discharge_instrument : Option String
  ysi_probe : Option String
  anc_method : Option String
  lab : Option String
  instrument : Option String
  deriving Repr, DecidableEq

/-- Base case of the instrument column:
`np.where(df['grouping_var']=='NCRN_WQ_WQUANTITY', df['discharge_instrument'], df['ysi_probe'])`. -/
def instrumentBase (r : IRow) : IRow :=
  { r with instrument :=
      if r.grouping_var = some "NCRN_WQ_WQUANTITY" then r.discharge_instrument
      else r.ysi_probe }

/-- One time-windowed backfill entry built from the nutrient-lab history
CSV: a `(characteristic, method)` pair whose earliest and latest observed
sample dates bound a closed window.  The source only keeps entries whose
two dates differ (`timediff > dt.timedelta(minutes=0)`). -/
structure InstrumentWindow where
  char : String
  method : String
  mindate : Int
  maxdate : Int
  deriving Repr, DecidableEq

/-- Application of one time-windowed backfill entry:
`np.where((df['Characteristic_Name']==paramlower) & (date >= mindate) & (date <= maxdate), method, df['instrument'])`. -/
def applyInstrumentWindow (r : IRow) (w : InstrumentWindow) : IRow :=
  if r.Characteristic_Name = w.char ∧ w.mindate ≤ r.activity_start_date ∧
      r.activity_start_date ≤ w.maxdate then
    { r with instrument := some w.method }
  else r

/-- One open-ended window of the post-cutover era (`mindate` only). -/
structure OpenWindow where
  char : String
  method : String
  mindate : Int
  deriving Repr, DecidableEq

/-- Application of one open-ended window:
`np.where((df['Characteristic_Name']==paramlower) & (date >= mindate), method, df['instrument'])`. -/
def applyOpenWindow (r : IRow) (w : OpenWindow) : IRow :=
  if r.Characteristic_Name = w.char ∧ w.mindate ≤ r.activity_start_date then
    { r with instrument := some w.method }
  else r

/-- One hard-coded pre-2016 era rule, with optionally unbounded sides. -/
structure EraRule where
  char : String
  method : String
  mindate : Option Int
  maxdate : Option Int
  deriving Repr, DecidableEq

/-- Application of one hard-coded era rule, mirroring the source's
three-way branch on which bounds are present.  The source never builds a
rule with both bounds absent; such a rule is applied nowhere. -/
def applyEraRule (r : IRow) (w : EraRule) : IRow :=
  match w.mindate, w.maxdate with
  | none, some hi =>
      if r.Characteristic_Name = w.char ∧ r.activity_start_date ≤ hi then
        { r with instrument := some w.method }
      else r
  | some lo, none =>
      if r.Characteristic_Name = w.char ∧ lo ≤ r.activity_start_date then
        { r with instrument := some w.method }
      else r
  | some lo, some hi =>
      if r.Characteristic_Name = w.char ∧ r.activity_start_date ≤ hi ∧
          lo ≤ r.activity_start_date then
        { r with instrument := some w.method }
      else r
  | none, none => r

/-- The clean-up step at the end of `_make_instrument_column`: an `anc`
row whose `anc_method` was recorded gets that method; an `anc` row from
lab `CUE` without a recorded method defaults to `Hach 8203`. -/
def ancCleanup (r : IRow) : IRow :=
  let r1 :=
    if r.anc_method ≠ none ∧ r.Characteristic_Name = "anc" then
      { r with instrument := r.anc_method }
    else r
  if r1.anc_method = none ∧ r1.Characteristic_Name = "anc" ∧ r1.lab = some "CUE" then
    { r1 with instrument := some "Hach 8203" }
  else r1

/-- The stray re-application after the clean-up: the source re-runs the
loop body once more with the leftover loop variables, which at that point
hold `paramlower = 'tdp'` (the last key of the hard-coded era table),
`method = 'Hach 8048'` and the orthophosphate window bounds (the last
executed inner iteration). -/
def leftoverTdpRule (lo hi : Int) (r : IRow) : IRow :=
  if r.Characteristic_Name = "tdp" ∧ r.activity_start_date ≤ hi ∧
      lo ≤ r.activity_start_date then
    { r with instrument := some "Hach 8048" }
  else r

/-- Row-level `_make_instrument_column`: the base case, then the closed
windows, then the open-ended windows, then the hard-coded era rules, then
the `anc_method` clean-up, then the stray `tdp` re-application — in source
order, later assignments overwriting earlier ones. -/
def makeInstrumentColumnRow (ws : List InstrumentWindow) (ows : List OpenWindow)
    (eras : List EraRule) (lo hi : Int) (r : IRow) : IRow :=
  leftoverTdpRule lo hi
    (ancCleanup
      (eras.foldl applyEraRule
        (ows.foldl applyOpenWindow
          (ws.foldl applyInstrumentWindow (instrumentBase r)))))

/-- All the instrument-resolution steps only write the `instrument`
column; this helper transports that fact through a fold. -/
theorem foldl_instrument_meta {α : Type} (f : IRow → α → IRow)
    (hf : ∀ r w, (f r w).Characteristic_Name = r.Characteristic_Name ∧
      (f r w).anc_method = r.anc_method ∧ (f r w).lab = r.lab) :
    ∀ (l : List α) (r : IRow),
      (l.foldl f r).Characteristic_Name = r.Characteristic_Name ∧
      (l.foldl f r).anc_method = r.anc_method ∧ (l.foldl f r).lab = r.lab := by
  intro l
  induction l with
  | nil => exact fun r => ⟨rfl, rfl, rfl⟩
  | cons w ws ih =>
    intro r
    simp only [List.foldl_cons]
    obtain ⟨h1, h2, h3⟩ := hf r w
    obtain ⟨g1, g2, g3⟩ := ih (f r w)
    exact ⟨g1.trans h1, g2.trans h2, g3.trans h3⟩

theorem applyInstrumentWindow_meta (r : IRow) (w : InstrumentWindow) :
    (applyInstrumentWindow r w).Characteristic_Name = r.Characteristic_Name ∧
    (applyInstrumentWindow r w).anc_method = r.anc_method ∧
    (applyInstrumentWindow r w).lab = r.lab := by
  unfold applyInstrumentWindow; split <;> exact ⟨rfl, rfl, rfl⟩

theorem applyOpenWindow_meta (r : IRow) (w : OpenWindow) :
    (applyOpenWindow r w).Characteristic_Name = r.Characteristic_Name ∧
    (applyOpenWindow r w).anc_method = r.anc_method ∧
    (applyOpenWindow r w).lab = r.lab := by
  unfold applyOpenWindow; split <;> exact ⟨rfl, rfl, rfl⟩

theorem applyEraRule_meta (r : IRow) (w : EraRule) :
    (applyEraRule r w).Characteristic_Name = r.Characteristic_Name ∧
    (applyEraRule r w).anc_method = r.anc_method ∧
    (applyEraRule r w).lab = r.lab := by
  unfold applyEraRule
  rcases w.mindate with - | lo <;> rcases w.maxdate with - | hi <;>
    first
      | (dsimp only; split <;> exact ⟨rfl, rfl, rfl⟩)
      | exact ⟨rfl, rfl, rfl⟩

/-- C3: a time-windowed backfill entry with distinct min and max dates
assigns its method to every row whose characteristic matches and whose
visit date lies inside the closed window (both boundary dates included),
and leaves a row dated strictly outside either bound untouched. -/
theorem instrument_window_boundaries (w : InstrumentWindow) (r : IRow)
    (_hw : w.mindate ≠ w.maxdate) :
    ((r.Characteristic_Name = w.char ∧ w.mindate ≤ r.activity_start_date ∧
        r.activity_start_date ≤ w.maxdate) →
      (applyInstrumentWindow r w).instrument = some w.method) ∧
    ((r.activity_start_date < w.mindate ∨ w.maxdate < r.activity_start_date) →
      applyInstrumentWindow r w = r) := by
  constructor
  · intro h
    unfold applyInstrumentWindow
    rw [if_pos h]
  · intro h
    unfold applyInstrumentWindow
    rw [if_neg]
    rintro ⟨-, h1, h2⟩
    rcases h with h | h <;> omega

/-- Sample window and row family used to witness C3 at both boundary
dates and one day outside each boundary. -/
def c3SampleWindow : InstrumentWindow :=
  { char := "nitrate", method := "Hach 10020", mindate := 10, maxdate := 20 }

def c3SampleRow (d : Int) : IRow :=
  { Characteristic_Name := "nitrate", activity_start_date := d, grouping_var := none,
    discharge_instrument := none, ysi_probe := none, anc_method := none, lab := none,
    instrument := none }

/-- Witness for C3: dates on each boundary resolve to the window's
method; dates one day outside each boundary are untouched. -/
theorem instrument_window_boundaries_witness :
    (applyInstrumentWindow (c3SampleRow 10) c3SampleWindow).instrument = some "Hach 10020" ∧
    (applyInstrumentWindow (c3SampleRow 20) c3SampleWindow).instrument = some "Hach 10020" ∧
    applyInstrumentWindow (c3SampleRow 9) c3SampleWindow = c3SampleRow 9 ∧
    applyInstrumentWindow (c3SampleRow 21) c3SampleWindow = c3SampleRow 21 :=
  ⟨(instrument_window_boundaries c3SampleWindow (c3SampleRow 10) (by decide)).1
      ⟨rfl, by decide, by decide⟩,
   (instrument_window_boundaries c3SampleWindow (c3SampleRow 20) (by decide)).1
      ⟨rfl, by decide, by decide⟩,
   (instrument_window_boundaries c3SampleWindow (c3SampleRow 9) (by decide)).2
      (Or.inl (by decide)),
   (instrument_window_boundaries c3SampleWindow (c3SampleRow 21) (by decide)).2
      (Or.inr (by decide))⟩

/-- C4: for an `anc` row on which an explicit `anc_method` was recorded
on the lab-sample relation, the final instrument value equals that
recorded method, whatever the windowed or hard-coded backfill rules
assigned earlier. -/
theorem instrument_anc_method_override (ws : List InstrumentWindow) (ows : List OpenWindow)
    (eras : List EraRule) (lo hi : Int) (r : IRow) (m : String)
    (hchar : r.Characteristic_Name = "anc") (hm : r.anc_method = some m) :
    (makeInstrumentColumnRow ws ows eras lo hi r).instrument = some m := by
  unfold makeInstrumentColumnRow
  have hbase : (instrumentBase r).Characteristic_Name = r.Characteristic_Name ∧
      (instrumentBase r).anc_method = r.anc_method ∧ (instrumentBase r).lab = r.lab := by
    unfold instrumentBase; exact ⟨rfl, rfl, rfl⟩
  obtain ⟨w1, w2, w3⟩ :=
    foldl_instrument_meta applyInstrumentWindow applyInstrumentWindow_meta ws (instrumentBase r)
  obtain ⟨o1, o2, o3⟩ := foldl_instrument_meta applyOpenWindow applyOpenWindow_meta ows
    (ws.foldl applyInstrumentWindow (instrumentBase r))
  obtain ⟨e1, e2, e3⟩ := foldl_instrument_meta applyEraRule applyEraRule_meta eras
    (ows.foldl applyOpenWindow (ws.foldl applyInstrumentWindow (instrumentBase r)))
  set r4 := eras.foldl applyEraRule
    (ows.foldl applyOpenWindow (ws.foldl applyInstrumentWindow (instrumentBase r))) with hr4
  have hc4 : r4.Characteristic_Name = "anc" := by
    rw [e1, o1, w1, hbase.1, hchar]
  have hm4 : r4.anc_method = some m := by
    rw [e2, o2, w2, hbase.2.1, hm]
  have hclean : ancCleanup r4 = { r4 with instrument := some m } := by
    unfold ancCleanup
    rw [if_pos (show r4.anc_method ≠ none ∧ r4.Characteristic_Name = "anc" from
      ⟨by simp [hm4], hc4⟩)]
    rw [if_neg (by simp [hm4])]
    rw [hm4]
  rw [hclean]
  unfold leftoverTdpRule
  rw [if_neg (by simp [hc4])]

/-- Witness for C4: a concrete `anc` row with a recorded method keeps it
even though a window rule covering its date would assign another one. -/
theorem instrument_anc_method_override_witness :
    (makeInstrumentColumnRow
      [{ char := "anc", method := "Hach 8203", mindate := 0, maxdate := 100 }] [] [] 0 100
      { Characteristic_Name := "anc", activity_start_date := 50, grouping_var := none,
        discharge_instrument := none, ysi_probe := none, anc_method := some "titration",
        lab := some "CUE", instrument := none }).instrument = some "titration" :=
  instrument_anc_method_override _ _ _ _ _ _ "titration" rfl rfl

/-! ## `transform._soft_constraints` -/

/-- One row at the warning-assignment tail of `_soft_constraints`, after
the bounds table has been left-joined on (so `low`/`high` are null when
the composite key had no match). -/
structure SRow where
  data_type : Option String
  num_result : Option ℚ
  review_status : Option String
  low : Option ℚ
  high : Option ℚ
  data_quality_flag : Option String
  result_warning : Option String
  deriving Repr, DecidableEq

/-- Pandas `<=` on nullable numeric columns: false when either side is null. -/
def pyLe : Option ℚ → Option ℚ → Bool
  | some a, some b => decide (a ≤ b)
  | _, _ => false

/-- Pandas `>=` on nullable numeric columns: false when either side is null. -/
def pyGe : Option ℚ → Option ℚ → Bool
  | some a, some b => decide (b ≤ a)
  | _, _ => false

/-- The warning assignment of `transform._soft_constraints`: starting
from `result_warning = None`, the below-bound `np.where` runs first and
the above-bound `np.where` runs second, so the above-bound write wins
where both masks hold.  Inlining the chain gives nested conditionals with
the later write tested first.  Pandas `!=` on a nullable column is true
on nulls, hence the negated equality for the review status. -/
def softConstraintsRow (r : SRow) : SRow :=
  { r with result_warning :=
      if r.data_type == some "float" && pyGe r.num_result r.high &&
          !(r.review_status == some "verified") then
        some "result is above soft constraint"
      else if r.data_type == some "float" && pyLe r.num_result r.low &&
          !(r.review_status == some "verified") then
        some "result is below soft constraint"
      else none }

/-- C5 counterexample: a non-verified float row whose result touches both
bounds at once (`low = high = result`) satisfies the claim's "below"
condition (`result ≤ low`) yet is warned "above", because the above-bound
write runs last in the source. -/
theorem soft_constraints_touching_bounds_cex :
    pyLe (some (7:ℚ)) (some 7) = true ∧
    (softConstraintsRow
      { data_type := some "float", num_result := some 7, review_status := some "in_review",
        low := some 7, high := some 7, data_quality_flag := none,
        result_warning := none }).result_warning = some "result is above soft constraint" ∧
    (softConstraintsRow
      { data_type := some "float", num_result := some 7, review_status := some "in_review",
        low := some 7, high := some 7, data_quality_flag := none,
        result_warning := none }).result_warning ≠ some "result is below soft constraint" := by
  decide

/-- C5 amended: the "below" warning applies when the result is ≤ low and
not also ≥ high (the above-bound check runs last and wins when both
hold); the "above" warning applies whenever the result is ≥ high; a
result strictly between the bounds gets no warning; a verified row never
gets a warning; and the `data_quality_flag` column is unchanged. -/
theorem soft_constraints_cases (r : SRow) :
    (r.data_type = some "float" → pyLe r.num_result r.low = true →
      pyGe r.num_result r.high = false → r.review_status ≠ some "verified" →
      (softConstraintsRow r).result_warning = some "result is below soft constraint") ∧
    (r.data_type = some "float" → pyGe r.num_result r.high = true →
      r.review_status ≠ some "verified" →
      (softConstraintsRow r).result_warning = some "result is above soft constraint") ∧
    (∀ v l h, r.num_result = some v → r.low = some l → r.high = some h →
      l < v → v < h → (softConstraintsRow r).result_warning = none) ∧
    (r.review_status = some "verified" → (softConstraintsRow r).result_warning = none) ∧
    (softConstraintsRow r).data_quality_flag = r.data_quality_flag := by
  refine ⟨?_, ?_, ?_, ?_, rfl⟩
  · intro hdt hle hge hver
    unfold softConstraintsRow
    rw [if_neg (by simp [hge]), if_pos (by simp [hdt, hle, hver])]
  · intro hdt hge hver
    unfold softConstraintsRow
    rw [if_pos (by simp [hdt, hge, hver])]
  · intro v l h hv hl hh hlow hhigh
    unfold softConstraintsRow
    rw [if_neg (by simp [pyGe, hv, hh, not_le.mpr hhigh]),
      if_neg (by simp [pyLe, hv, hl, not_le.mpr hlow])]
  · intro hver
    unfold softConstraintsRow
    rw [if_neg (by simp [hver]), if_neg (by simp [hver])]

/-- Witness for C5 (amended): a result below the low bound on a
non-verified row is warned "below", and the same value on a verified row
produces no warning. -/
theorem soft_constraints_cases_witness :
    (softConstraintsRow
      { data_type := some "float", num_result := some 1, review_status := some "in_review",
        low := some 5, high := some 10, data_quality_flag := none,
        result_warning := none }).result_warning = some "result is below soft constraint" ∧
    (softConstraintsRow
      { data_type := some "float", num_result := some 1, review_status := some "verified",
        low := some 5, high := some 10, data_quality_flag := none,
        result_warning := none }).result_warning = none :=
  ⟨(soft_constraints_cases _).1 rfl (by decide) (by decide) (by decide),
   (soft_constraints_cases _).2.2.2.1 rfl⟩

/-! ## `transform._apply_data_types` and `transform._cast_result_by_type` -/

/-- A cell of the `num_result` column.  `np.where` copies values between
columns without casting, so the column can hold raw text (the source's
`astype(float)` line is commented out), a number, or a null. -/
inductive Cell where
  | null : Cell
  | text : String → Cell
  | num : ℚ → Cell
  deriving Repr, DecidableEq

/-- One row of the long-format table at the type-assignment and
result-casting stages. -/
structure TRow where
  Characteristic_Name : String
  Result_Text : Option String
  data_type : Option String
  Result_Unit : Option String
  num_result : Cell
  str_result : Option String
  deriving Repr, DecidableEq

/-- The hard-coded characteristic registry of `_apply_data_types`:
characteristic name to (data type, canonical unit).  The duplicate
`discharge_instrument` assignment in the source collapses to one dict
key with the same value. -/
def dataTypeLookup : List (String × String × Option String) := [
  ("skip_req_observations", "bool", none),
  ("skip_req_observations_reason", "string", none),
  ("air_temperature", "float", some "deg C"),
  ("weather_condition", "string", none),
  ("rain_last_24", "bool", none),
  ("algae_cover_percent", "string", none),
  ("algae_description", "string", none),
  ("entry_stream_phy_appear", "string", none),
  ("entry_other_stream_phy_appear", "string", none),
  ("flow_status", "string", none),
  ("left_bank_riparian_width", "float", some "m"),
  ("right_bank_riparian_width", "float", some "m"),
  ("landuse_category", "string", none),
  ("dom_riparian_ter_veg_sp", "string", none),
  ("channelized", "string", none),
  ("bank_stability", "string", none),
  ("site_observation_notes", "string", none),
  ("skip_req_ysi", "string", none),
  ("skip_req_ysi_reason", "string", none),
  ("skip_req_flowtracker", "string", none),
  ("skip_req_flowtracker_reason", "string", none),
  ("discharge_instrument", "string", none),
  ("wetted_width", "float", some "ft"),
  ("discharge", "float", some "cfs"),
  ("mean_velocity", "float", some "ft/s"),
  ("mean_crossection_depth", "float", some "ft"),
  ("flowtracker_notes", "string", none),
  ("skip_req_grabsample", "string", none),
  ("skip_req_grabsample_reason", "string", none),
  ("grabsample_notes", "string", none),
  ("skip_req_photo", "string", none),
  ("skip_req_photo_reason", "string", none),
  ("ysi_probe", "string", none),
  ("ysi_increment", "string", none),
  ("ysi_increment_distance", "float", some "ft"),
  ("water_temperature", "float", some "deg C"),
  ("barometric_pressure", "float", some "mm Hg"),
  ("conductivity", "float", some "uS/cm"),
  ("specific_conductance", "float", some "uS/cm"),
  ("turbidity", "float", some "ntu"),
  ("salinity", "float", some "ppt"),
  ("ph", "float", some "pH"),
  ("do_concentration", "float", some "mg/L"),
  ("do_saturation", "float", some "percent"),
  ("tds", "float", some "mg/L"),
  ("ysi_increment_notes", "string", none),
  ("duplicate_y_n", "string", none),
  ("lab", "string", none),
  ("anc_bottle_size", "string", none),
  ("nutrient_bottle_size", "string", none),
  ("anc", "float", some "ueq/L"),
  ("tn", "float", some "mg/L"),
  ("tp", "float", some "mg/L"),
  ("ammonia", "float", some "mg/L"),
  ("orthophosphate", "float", some "mg/L"),
  ("chlorine", "float", some "mg/L"),
  ("nitrate", "float", some "mg/L"),
  ("tdp", "float", some "mg/L"),
  ("tdn", "float", some "mg/L"),
  ("anc_method", "string", none),
  ("stream_physical_appearance", "string", none),
  ("tape_offset", "float", some "ft")]

/-- The per-entry `np.where` of the `_apply_data_types` loop. -/
def applyDataTypeEntry (acc : TRow) (kv : String × String × Option String) : TRow :=
  if acc.Characteristic_Name == kv.1 then
    { acc with data_type := some kv.2.1, Result_Unit := kv.2.2 }
  else acc

/-- `transform._apply_data_types` on one row: both columns start as
null (the base case), then every registry entry is applied in order. -/
def applyDataTypes (r : TRow) : TRow :=
  dataTypeLookup.foldl applyDataTypeEntry { r with data_type := none, Result_Unit := none }

def numtypes : List String := ["float"]
def texttypes : List String := ["bool", "string"]

/-- Pandas `.isin` on a nullable string column: null is in no list. -/
def optIsin (x : Option String) (l : List String) : Bool :=
  match x with
  | some t => l.contains t
  | none => false

/-- Copying the `Result_Text` column into an object column via
`np.where`: text stays text, null stays null — no numeric cast. -/
def textAsCell : Option String → Cell
  | some s => Cell.text s
  | none => Cell.null

/-- `transform._cast_result_by_type` on one row: `num_result` starts as
NaN and receives the raw `Result_Text` where the data type is in
`numtypes`; `str_result` starts as None and receives the raw
`Result_Text` where the data type is in `texttypes`.  The
`astype(float)` cast that would parse the text is commented out in the
source. -/
def castResultByType (r : TRow) : TRow :=
  { r with
      num_result := if optIsin r.data_type numtypes then textAsCell r.Result_Text else Cell.null,
      str_result := if optIsin r.data_type texttypes then r.Result_Text else none }

/-- The folded registry application writes only `data_type` and
`Result_Unit`; `Result_Text` passes through unchanged. -/
theorem dataTypeFold_text (l : List (String × String × Option String)) :
    ∀ r0 : TRow, (l.foldl applyDataTypeEntry r0).Result_Text = r0.Result_Text := by
  induction l with
  | nil => intro r0; rfl
  | cons kv l ih =>
    intro r0
    simp only [List.foldl_cons]
    rw [ih]
    unfold applyDataTypeEntry
    split <;> rfl

/-- Splits a character list at its first dot, if any. -/
def splitAtDot : List Char → List Char × Option (List Char)
  | [] => ([], none)
  | c :: rest =>
    if c = '.' then ([], some rest)
    else
      let p := splitAtDot rest
      (c :: p.1, p.2)

/-- Reads a nonempty all-digit character list as a natural number. -/
def parseDigits : List Char → Nat → Option Nat
  | [], acc => some acc
  | c :: rest, acc =>
    if c.isDigit then parseDigits rest (acc * 10 + (c.toNat - 48)) else none

def parseNatDigits (l : List Char) : Option Nat :=
  if l.isEmpty then none else parseDigits l 0

/-- Parses unsigned decimal notation (`"15"`, `"15.2"`) as a rational. -/
def parseDecimal (s : String) : Option ℚ :=
  match splitAtDot s.toList with
  | (intPart, none) => (parseNatDigits intPart).map (fun n => (n : ℚ))
  | (intPart, some fracPart) =>
    if fracPart.contains '.' then none
    else
      match parseNatDigits intPart, parseNatDigits fracPart with
      | some x, some y => some ((x : ℚ) + (y : ℚ) / ((10 : ℚ) ^ fracPart.length))
      | _, _ => none

/-- Rendering of the spec sentence "numeric value = raw text parsed as a
number when registry type is numeric", written from the spec's words for
comparison with the source-derived `castResultByType`. -/
def specNumericValue (r : TRow) : Cell :=
  if optIsin r.data_type numtypes then
    match r.Result_Text with
    | some s =>
      match parseDecimal s with
      | some q => Cell.num q
      | none => Cell.null
    | none => Cell.null
  else Cell.null

/-- A concrete float-typed row used for C6. -/
def c6FloatRow : TRow :=
  { Characteristic_Name := "air_temperature", Result_Text := some "15.2",
    data_type := none, Result_Unit := none, num_result := Cell.null, str_result := none }

/-- A concrete text-typed row used for C6. -/
def c6TextRow : TRow :=
  { Characteristic_Name := "lab", Result_Text := some "AL",
    data_type := none, Result_Unit := none, num_result := Cell.null, str_result := none }

/-- C6 counterexample: after type assignment and casting, a float-typed
row's `num_result` holds the raw text `"15.2"` verbatim, not the parsed
number `76/5`, because the numeric cast is commented out in the source. -/
theorem cast_result_not_parsed_cex :
    (castResultByType (applyDataTypes c6FloatRow)).num_result = Cell.text "15.2" ∧
    parseDecimal "15.2" = some (76 / 5 : ℚ) ∧
    (castResultByType (applyDataTypes c6FloatRow)).num_result ≠
      specNumericValue (applyDataTypes c6FloatRow) := by
  refine ⟨by decide, ?_, by decide⟩
  simp +decide [parseDecimal, splitAtDot, parseNatDigits, parseDigits]
  norm_num

/-- C6 amended: after type assignment and result casting, a row whose
registry type is `float` carries the raw result text verbatim (uncast)
in `num_result` and null in `str_result`; a row whose registry type is
`bool` or `string` carries the raw text in `str_result` and null in
`num_result`. -/
theorem cast_result_by_type_cases (r : TRow) :
    ((applyDataTypes r).data_type = some "float" →
      (castResultByType (applyDataTypes r)).num_result = textAsCell r.Result_Text ∧
      (castResultByType (applyDataTypes r)).str_result = none) ∧
    (∀ t, (applyDataTypes r).data_type = some t → t ∈ texttypes →
      (castResultByType (applyDataTypes r)).str_result = r.Result_Text ∧
      (castResultByType (applyDataTypes r)).num_result = Cell.null) := by
  have htext : (applyDataTypes r).Result_Text = r.Result_Text :=
    dataTypeFold_text dataTypeLookup _
  have hnum : ∀ x : TRow, (castResultByType x).num_result =
      if optIsin x.data_type numtypes then textAsCell x.Result_Text else Cell.null :=
    fun _ => rfl
  have hstr : ∀ x : TRow, (castResultByType x).str_result =
      if optIsin x.data_type texttypes then x.Result_Text else none :=
    fun _ => rfl
  constructor
  · intro hdt
    constructor
    · rw [hnum, hdt, htext, if_pos (show optIsin (some "float") numtypes = true from rfl)]
    · rw [hstr, hdt, if_neg (show ¬optIsin (some "float") texttypes = true by decide)]
  · intro t hdt hmem
    simp only [texttypes, List.mem_cons, List.mem_singleton, List.not_mem_nil,
      or_false] at hmem
    rcases hmem with rfl | rfl
    · exact ⟨by rw [hstr, hdt, htext,
          if_pos (show optIsin (some "bool") texttypes = true from rfl)],
        by rw [hnum, hdt, if_neg (show ¬optIsin (some "bool") numtypes = true by decide)]⟩
    · exact ⟨by rw [hstr, hdt, htext,
          if_pos (show optIsin (some "string") texttypes = true from rfl)],
        by rw [hnum, hdt, if_neg (show ¬optIsin (some "string") numtypes = true by decide)]⟩

/-- Witness for C6 (amended): a concrete float-typed row keeps its raw
text in `num_result`; a concrete string-typed row carries its text in
`str_result` with a null `num_result`. -/
theorem cast_result_by_type_cases_witness :
    ((castResultByType (applyDataTypes c6FloatRow)).num_result = textAsCell (some "15.2") ∧
      (castResultByType (applyDataTypes c6FloatRow)).str_result = none) ∧
    ((castResultByType (applyDataTypes c6TextRow)).str_result = some "AL" ∧
      (castResultByType (applyDataTypes c6TextRow)).num_result = Cell.null) :=
  ⟨(cast_result_by_type_cases c6FloatRow).1 (by decide),
   (cast_result_by_type_cases c6TextRow).2 "string" (by decide) (by decide)⟩

/-! ## `utils.wqp_wqx` (exchange projection)

The crosswalk has three parts: direct column renames, constant-valued
columns, and calculated columns.  The `LastUpdated` constant is
`dt.datetime.now()` at run time, so the constants list is parameterized
over that timestamp; the source's duplicated
`ActivityTopDepthHeightMeasure/MeasureUnitCode` dict key collapses to
one entry.  An input dataframe row is embedded as a lookup from column
name to nullable value. -/

def wqpXwalkCols : List (String × String) := [
  ("ActivityIdentifier", "activity_id"),
  ("ActivityMediaSubdivisionName", "activity_group_id"),
  ("ActivityStartDate", "activity_start_date"),
  ("ActivityStartTime/Time", "activity_start_time"),
  ("ActivityStartTime/TimeZoneCode", "timezone"),
  ("MonitoringLocationIdentifier", "location_id"),
  ("MonitoringLocationName", "ncrn_site_name"),
  ("ActivityLocation/LatitudeMeasure", "ncrn_latitude"),
  ("ActivityLocation/LongitudeMeasure", "ncrn_longitude"),
  ("ResultDetectionConditionText", "data_quality_flag"),
  ("CharacteristicName", "Characteristic_Name"),
  ("ResultMeasureValue", "Result_Text"),
  ("ResultMeasure/MeasureUnitCode", "Result_Unit"),
  ("ResultAnalyticalMethod/MethodIdentifier", "grouping_var"),
  ("LaboratoryName", "lab"),
  ("MethodSpeciationName", "MethodSpeciationName"),
  ("ResultSampleFractionText", "ResultSampleFractionText"),
  ("SampleCollectionEquipmentName", "instrument")]

def wqpXwalkConstants (now : Option String) : List (String × Option String) := [
  ("OrganizationIdentifier", some "NCRN"),
  ("OrganizationFormalName", some "National Park Service Inventory and Monitoring Division"),
  ("ActivityCommentText", none),
  ("ActivityEndDate", none),
  ("ActivityEndTime/Time", none),
  ("ActivityEndTime/TimeZoneCode", none),
  ("ActivityRelativeDepthName", none),
  ("ActivityDepthHeightMeasure/MeasureValue", none),
  ("ActivityDepthHeightMeasure/MeasureUnitCode", none),
  ("ActivityDepthAltitudeReferencePointText", none),
  ("ActivityTopDepthHeightMeasure/MeasureValue", none),
  ("ActivityTopDepthHeightMeasure/MeasureUnitCode", none),
  ("ActivityBottomDepthHeightMeasure/MeasureValue", none),
  ("ActivityBottomDepthHeightMeasure/MeasureUnitCode", none),
  ("ProjectIdentifier", some "USNPS NCRN Perennial stream water monitoring"),
  ("ProjectName", some "USNPS NCRN Perennial stream water monitoring"),
  ("ActivityConductingOrganizationText",
    some "USNPS National Capital Region Inventory and Monitoring"),
  ("SampleAquifer", none),
  ("HydrologicCondition", none),
  ("HydrologicEvent", none),
  ("SampleCollectionMethod/MethodIdentifier", none),
  ("SampleCollectionMethod/MethodIdentifierContext", none),
  ("SampleCollectionMethod/MethodName", none),
  ("SampleCollectionMethod/MethodDescriptionText", none),
  ("MeasureQualifierCode", none),
  ("StatisticalBaseCode", none),
  ("ResultWeightBasisText", none),
  ("ResultTemperatureBasisText", none),
  ("ResultParticleSizeBasisText", none),
  ("DataQuality/PrecisionValue", none),
  ("DataQuality/BiasValue", none),
  ("DataQuality/ConfidenceIntervalValue", none),
  ("DataQuality/UpperConfidenceLimitValue", none),
  ("DataQuality/LowerConfidenceLimitValue", none),
  ("ResultCommentText", none),
  ("ResultStatusIdentifier", some "Final"),
  ("USGSPCode", none),
  ("ResultDepthHeightMeasure/MeasureValue", none),
  ("ResultDepthHeightMeasure/MeasureUnitCode", none),
  ("ResultDepthAltitudeReferencePointText", none),
  ("SubjectTaxonomicName", none),
  ("SampleTissueAnatomyName", none),
  ("BinaryObjectFileName", none),
  ("BinaryObjectFileTypeCode", none),
  ("ResultFileUrl", none),
  ("ResultAnalyticalMethod/MethodIdentifierContext", none),
  ("ResultAnalyticalMethod/MethodName", none),
  ("ResultAnalyticalMethod/MethodUrl", none),
  ("ResultAnalyticalMethod/MethodDescriptionText", none),
  ("AnalysisStartDate", none),
  ("ResultLaboratoryCommentText", none),
  ("ResultDetectionQuantitationLimitUrl", none),
  ("DetectionQuantitationLimitTypeName", none),
  ("DetectionQuantitationLimitMeasure/MeasureValue", none),
  ("DetectionQuantitationLimitMeasure/MeasureUnitCode", none),
  ("LabSamplePreparationUrl", none),
  ("LastUpdated", now),
  ("ProviderName", some "National Park Service Inventory and Monitoring Division"),
  ("ResultTimeBasisText", none)]

/-- The four calculated columns, each re-computed per run: the row
index, and three `np.where` assignments over already-crosswalked
columns (characteristic membership for the media name, the grouping
variable for the activity type, and the instrument for the value
type). -/
def wqpXwalkCalculated : List (String × (Nat → (String → Option String) → Option String)) := [
  ("ResultIdentifier", fun idx _ => some (toString idx)),
  ("ActivityMediaName", fun _ r =>
    some (if r "Characteristic_Name" == some "air_temperature" ||
        r "Characteristic_Name" == some "barometric_pressure" ||
        r "Characteristic_Name" == some "weather_condition" then "Air" else "Water")),
  ("ActivityTypeCode", fun _ r =>
    some (if r "grouping_var" == some "NCRN_WQ_WCHEM" then "Sample-Routine"
      else "Field Msr/Obs")),
  ("ResultValueTypeName", fun _ r =>
    some (if r "instrument" == some "calculated_result" then "Calculated" else "Actual"))]

/-- One output row of the exchange projection: direct renames, then
constants, then calculated columns. -/
def wqpProjectRow (now : Option String) (idx : Nat) (r : String → Option String) :
    List (String × Option String) :=
  wqpXwalkCols.map (fun p => (p.1, r p.2)) ++ wqpXwalkConstants now
    ++ wqpXwalkCalculated.map (fun p => (p.1, p.2 idx r))

/-- The crosswalk-application stage of `utils.wqp_wqx`: the column-count
assert runs before any row is produced; on a mismatch the run aborts
with no output rows. -/
def wqp_wqx (now : Option String) (exampleCols : List String)
    (df : List (String → Option String)) :
    Except String (List (List (String × Option String))) :=
  if wqpXwalkCols.length + (wqpXwalkConstants now).length + wqpXwalkCalculated.length
      = exampleCols.length then
    .ok (((List.range df.length).zip df).map fun p => wqpProjectRow now p.1 p.2)
  else
    .error "the xwalk does not cover the template columns"

/-- C7: the exchange projection checks
`len(renames) + len(constants) + len(calculated) == len(template)`
before producing any output row: a mismatch is a fatal error carrying no
rows, and any run that returns rows had an exactly covering crosswalk. -/
theorem wqp_xwalk_guard (now : Option String) (exampleCols : List String)
    (df : List (String → Option String)) :
    (wqpXwalkCols.length + (wqpXwalkConstants now).length + wqpXwalkCalculated.length ≠
        exampleCols.length →
      wqp_wqx now exampleCols df = .error "the xwalk does not cover the template columns") ∧
    (∀ out, wqp_wqx now exampleCols df = .ok out →
      wqpXwalkCols.length + (wqpXwalkConstants now).length + wqpXwalkCalculated.length =
        exampleCols.length) := by
  constructor
  · intro h
    unfold wqp_wqx
    rw [if_neg h]
  · intro out hout
    unfold wqp_wqx at hout
    split_ifs at hout with h
    exact h

/-- Witness for C7: a five-column template cannot be covered by the
81-column crosswalk, so the projection aborts with no rows. -/
theorem wqp_xwalk_guard_witness :
    wqp_wqx none (List.replicate 5 "c") [] =
      .error "the xwalk does not cover the template columns" :=
  (wqp_xwalk_guard none (List.replicate 5 "c") []).1 (by decide)

/-! ## Python string primitives used by the flag/other-column logic -/

/-- Boolean test that `p` is an initial segment of `s`. -/
def prefOf : List Char → List Char → Bool
  | [], _ => true
  | _ :: _, [] => false
  | a :: p, b :: s => a == b && prefOf p s

/-- Boolean substring search over character lists. -/
def subL (pat : List Char) : List Char → Bool
  | [] => pat.isEmpty
  | c :: rest => prefOf pat (c :: rest) || subL pat rest

def otherPat : List Char := ['o', 't', 'h', 'e', 'r']

/-- Python `'other' in s`. -/
def hasOther (s : String) : Bool := subL otherPat s.toList

/-- Fuel-driven replacement of every occurrence of `pat` (nonempty) by
`rep`; the fuel is the input length, which one character or one match is
consumed from at every step. -/
def replaceLAux : Nat → List Char → List Char → List Char → List Char
  | 0, _, _, l => l
  | _ + 1, _, _, [] => []
  | n + 1, pat, rep, c :: rest =>
    if prefOf pat (c :: rest) then
      rep ++ replaceLAux n pat rep (List.drop (pat.length - 1) rest)
    else
      c :: replaceLAux n pat rep rest

/-- Python `s.replace(pat, rep)` for a nonempty pattern. -/
def strReplace (s pat rep : String) : String :=
  ⟨replaceLAux s.toList.length pat.toList rep.toList s.toList⟩

/-! ## `transform._gather_others` (triple gathering)

The prologue of `_gather_others` works over the current column-name set:
`others` are the columns containing `'other'`; dropping `'other_'` gives
the expected entry columns, and further dropping `'entry_'` the expected
root columns; the names among these that are absent from the column set
are collected as `mismatches` and printed as warnings.  The column-map
loop then runs `for i in range(len(others))` but indexes the FILTERED
`entries`/`roots` lists with `i`, so any mismatch shifts or exhausts
those lists; an out-of-range index is an uncaught Python `IndexError`,
embedded here as an `Except.error`. -/

def gatherOthersOthers (cols : List String) : List String := cols.filter hasOther

def gatherOthersEntry (cols : List String) : List String :=
  (gatherOthersOthers cols).map (fun x => strReplace x "other_" "")

def gatherOthersRoot (cols : List String) : List String :=
  (gatherOthersEntry cols).map (fun x => strReplace x "entry_" "")

def gatherOthersMismatches (cols : List String) : List String :=
  (gatherOthersEntry cols).filter (fun x => !cols.contains x) ++
    (gatherOthersRoot cols).filter (fun x => !cols.contains x)

/-- One iteration of the column-map loop: Python evaluates `others[i]`,
then `roots[i]` (unless the other column is the special
`other_location_name`), then `entries[i]`. -/
def gatherLuStep (others entries roots : List String) (i : Nat) :
    Except String (String × String × String) :=
  match others.get? i with
  | none => .error "IndexError"
  | some o =>
    match (if o == "other_location_name" then some "ncrn_site_name" else roots.get? i) with
    | none => .error "IndexError"
    | some r =>
      match entries.get? i with
      | none => .error "IndexError"
      | some e => .ok (o, e, r)

/-- The triple-gathering prologue of `transform._gather_others`. -/
def gatherOthersTriples (cols : List String) :
    Except String (List (String × String × String)) :=
  let others := gatherOthersOthers cols
  let entries := (gatherOthersEntry cols).filter
    (fun x => !(gatherOthersMismatches cols).contains x)
  let roots := (gatherOthersRoot cols).filter
    (fun x => !(gatherOthersMismatches cols).contains x)
  (List.range others.length).mapM (gatherLuStep others entries roots)

/-- C8 (code bug): on a column set holding the incomplete triple
`entry_other_x` (both expected partner columns `entry_x` and `x`
absent), the mismatches are detected — so the named warnings are printed
— but the column-map loop then raises an `IndexError` instead of
skipping the triple, because the filtered `entries`/`roots` lists are
indexed by the unfiltered `others` positions. -/
theorem gather_others_incomplete_triple_raises :
    gatherOthersMismatches ["entry_other_x"] = ["entry_x", "x"] ∧
    gatherOthersTriples ["entry_other_x"] = .error "IndexError" :=
  ⟨rfl, rfl⟩

/-! ## `transform._apply_data_flags` (other-flag replacement)

The flag lookup table is embedded as an association list from column
name to cell list. -/

abbrev FlagTable := List (String × List (Option String))

def lookupCol (t : FlagTable) (name : String) : Option (List (Option String)) :=
  (t.find? (fun p => p.1 == name)).map (fun p => p.2)

def updateCol (t : FlagTable) (name : String) (v : List (Option String)) : FlagTable :=
  t.map (fun p => if p.1 == name then (p.1, v) else p)

def strLower (s : String) : String := ⟨s.toList.map Char.toLower⟩

/-- The mask `flags_lookup[col].astype(str).str.lower().str.contains('other')
& (flags_lookup[col].isna()==False)` on one cell: a null renders as
`'nan'`, which never contains `'other'`, and fails the not-null test
anyway. -/
def flagCellMask (x : Option String) : Bool :=
  match x with
  | some s => subL otherPat (strLower s).toList
  | none => false

/-- Elementwise `np.where(mask, a, b)` over cell lists. -/
def npWhereCells : List Bool → List (Option String) → List (Option String) → List (Option String)
  | m :: ms, a :: xs, b :: ys => (if m then a else b) :: npWhereCells ms xs ys
  | _, _, _ => []

/-- The paired other-column of a flag column: the two abbreviation
aliases, otherwise the `other_` naming convention. -/
def otherColOf (c : String) : String :=
  if c == "mean_crossection_depth_flag" then "other_mean_crossection_dep_flag"
  else if c == "ysi_increment_distance_flag" then "other_ysi_increment_dist_flag"
  else "other_" ++ c

/-- The other-flag replacement loop of `_apply_data_flags`: for each
column not containing `'other'` and not `GlobalID`, move the paired
other-column's cell into the flag column wherever the flag mentions
"other".  A missing paired column raises a `KeyError` inside the `try`
block before the assignment, and the `except` handler prints and
`break`s, leaving the table as it stands. -/
def replaceOthersLoop : FlagTable → List String → FlagTable
  | t, [] => t
  | t, c :: rest =>
    if !hasOther c && c != "GlobalID" then
      match lookupCol t (otherColOf c), lookupCol t c with
      | some ov, some cv =>
        replaceOthersLoop (updateCol t c (npWhereCells (cv.map flagCellMask) ov cv)) rest
      | _, _ => t
    else replaceOthersLoop t rest

/-- The replacement loop run over the table's own columns, as in the
source (`for col in flags_lookup.columns`). -/
def replaceOthers (t : FlagTable) : FlagTable :=
  replaceOthersLoop t (t.map (fun p => p.1))

/-- The other-column deletion loop of `_apply_data_flags`
(`for col in flags_lookup.columns: if 'other' in col: del`). -/
def removeOthers (t : FlagTable) : FlagTable :=
  t.filter (fun p => !hasOther p.1)

theorem hasOther_append (c : String) : hasOther ("other_" ++ c) = true := by
  cases c with
  | mk l => rfl

theorem hasOther_otherColOf (c : String) : hasOther (otherColOf c) = true := by
  unfold otherColOf
  split_ifs with h1 h2
  · decide
  · decide
  · exact hasOther_append c

theorem lookupCol_none_of_clean (t : FlagTable) (h : ∀ p ∈ t, hasOther p.1 = false)
    (name : String) (hn : hasOther name = true) : lookupCol t name = none := by
  unfold lookupCol
  rw [List.find?_eq_none.mpr]
  · rfl
  · intro p hp hbeq
    rw [beq_iff_eq] at hbeq
    have hfalse : hasOther name = false := hbeq ▸ h p hp
    rw [hn] at hfalse
    exact Bool.noConfusion hfalse

theorem replaceOthersLoop_clean (t : FlagTable) (h : ∀ p ∈ t, hasOther p.1 = false) :
    ∀ names : List String, replaceOthersLoop t names = t := by
  intro names
  induction names with
  | nil => rfl
  | cons c rest ih =>
    show replaceOthersLoop t (c :: rest) = t
    unfold replaceOthersLoop
    by_cases hc : (!hasOther c && c != "GlobalID") = true
    · rw [if_pos hc,
        lookupCol_none_of_clean t h (otherColOf c) (hasOther_otherColOf c)]
    · rw [if_neg hc]
      exact ih

theorem removeOthers_clean (t : FlagTable) : ∀ p ∈ removeOthers t, hasOther p.1 = false := by
  intro p hp
  unfold removeOthers at hp
  obtain ⟨-, hmem⟩ := List.mem_filter.mp hp
  simpa using hmem

/-- C9: running the other-flag replacement a second time, on a table
from which the paired other columns have already been removed, is a
no-op — the very first eligible column's paired other-column lookup
raises the caught `KeyError` and breaks out before any write. -/
theorem flag_reconciliation_second_run_noop (t : FlagTable) :
    replaceOthers (removeOthers t) = removeOthers t :=
  replaceOthersLoop_clean (removeOthers t) (removeOthers_clean t) _

end NCRNWater
